import Mathlib

/-!
# Veritaminal — verification of the session state machine and scoring engine

A shallow embedding of the decision/scoring/persistence core of the
Veritaminal border-control game (JavaScript sources under src/), together
with proofs settling the frozen claims about it.

Conventions of the embedding:
* JavaScript numbers holding integer counters (day, corruption, trust,
  streaks) become Int or Nat; fractional scores and confidences become ℚ.
* GameState streak fields are absent in the default memory and are read
  with a fall-back of 0 in the code, so the embedding models them as total
  Nat fields defaulting to 0.
* Asynchronous external calls (document generation, AI judgment) and
  randomness are modelled as explicit parameters: an Option for a call that
  may fail to return usable data, a Bool or ℚ for each random draw.
* A JavaScript Set (insertion ordered, duplicate free) is modelled as a
  List with a Nodup invariant; adding is append-if-absent.
-/

namespace Veritaminal

/-! ## Game state and the decision state machine (src/gameplay.js) -/

/-- The gameState record of MemoryManager.getDefaultMemory, plus the two
streak counters that GameplayManager.updateGameState stores into it. The
default memory omits the streak fields; the code reads them with a 0
fall-back, so they are modelled as total fields whose default is 0. -/
structure GameState where
  day : Int
  corruption : Int
  trust : Int
  correctStreak : Nat
  incorrectStreak : Nat
deriving DecidableEq, Repr

/-- GameplayManager.updateGameState (src/gameplay.js lines 269-328): the
streak-based escalation applied after each scored decision. The decision
string is carried only for logging in the source and does not influence
the state. The stateUpdates object always carries both streak fields, so
the merge into gameState is total. -/
def updateGameState (_decision : String) (isCorrect : Bool) (s : GameState) : GameState :=
  if isCorrect then
    -- Reset incorrect streak, increment correct streak.
    let correctStreak := s.correctStreak + 1
    -- Increase trust after 2 correct decisions, resetting the streak.
    if correctStreak ≥ 2 then
      { s with trust := s.trust + 1, correctStreak := 0, incorrectStreak := 0 }
    else
      { s with correctStreak := correctStreak, incorrectStreak := 0 }
  else
    -- Reset correct streak, increment incorrect streak; trust always drops.
    let incorrectStreak := s.incorrectStreak + 1
    -- Increase corruption after 2 wrong decisions, resetting the streak.
    if incorrectStreak ≥ 2 then
      { s with trust := s.trust - 1, corruption := s.corruption + 1,
               correctStreak := 0, incorrectStreak := 0 }
    else
      { s with trust := s.trust - 1, correctStreak := 0,
               incorrectStreak := incorrectStreak }

/-- GameplayManager.checkGameOverConditions (src/gameplay.js lines 334-366):
true exactly when corruption has reached 5 or trust has fallen to -5. -/
def checkGameOverConditions (s : GameState) : Bool :=
  if s.corruption ≥ 5 then true
  else if s.trust ≤ -5 then true
  else false

/-- The slice of GameplayManager state touched by a state transition: the
game state counters and the gameCompleted flag that
checkGameOverConditions sets. -/
structure GameplayState where
  gameState : GameState
  gameCompleted : Bool
deriving DecidableEq, Repr

/-- One full state transition as the source performs it: updateGameState
ends by calling checkGameOverConditions, which sets gameCompleted when a
threshold is reached and leaves it unchanged otherwise. -/
def updateGameStateChecked (decision : String) (isCorrect : Bool)
    (g : GameplayState) : GameplayState :=
  let s := updateGameState decision isCorrect g.gameState
  { gameState := s
    gameCompleted := g.gameCompleted || checkGameOverConditions s }

/-- The gameState record of MemoryManager.getDefaultMemory
(src/memory.js lines 35-59): day 1, corruption 0, trust 0, with the streak
fields absent, hence 0 in this embedding. -/
def defaultGameState : GameState :=
  { day := 1, corruption := 0, trust := 0, correctStreak := 0, incorrectStreak := 0 }

/-- The game states reachable by the engine: the fresh default state and
everything obtainable from a reachable state by one scored decision. -/
inductive ReachableGS : GameState → Prop where
  | init : ReachableGS defaultGameState
  | step (d : String) (b : Bool) (s : GameState) :
      ReachableGS s → ReachableGS (updateGameState d b s)

/-- The claim wording of C5, stated as written: exactly one of the two
streak counters is non-zero. -/
def exactlyOneStreakNonzero (s : GameState) : Prop :=
  (s.correctStreak ≠ 0 ∧ s.incorrectStreak = 0) ∨
  (s.correctStreak = 0 ∧ s.incorrectStreak ≠ 0)

instance (s : GameState) : Decidable (exactlyOneStreakNonzero s) := by
  unfold exactlyOneStreakNonzero; infer_instance

/-! ## Narrative game-over classification (src/narrative.js) -/

/-- The record returned by NarrativeManager.checkGameOver. -/
structure GameOverResult where
  isGameOver : Bool
  endingType : Option String
  endingMessage : Option String
deriving DecidableEq, Repr

/-- NarrativeManager.checkGameOver (src/narrative.js lines 104-127), with
the constructor thresholds corruptionGameOver = 5 and trustGameOver = -5
inlined. The corruption branch is tested first. -/
def checkGameOver (corruption trust : Int) : GameOverResult :=
  if corruption ≥ 5 then
    { isGameOver := true
      endingType := some "bad_corrupt"
      endingMessage := some "Internal affairs officers escort you away. Your career ends in disgrace due to overwhelming evidence of corruption." }
  else if trust ≤ -5 then
    { isGameOver := true
      endingType := some "bad_strict"
      endingMessage := some "You are reassigned to a remote outpost. Your overly strict enforcement caused too many diplomatic complaints." }
  else
    { isGameOver := false, endingType := none, endingMessage := none }

/-! ## AI judgment (src/api.js, provided as src/mainMenu.js part 2) -/

/-- The AIJudgment record produced by aiJudgeDocument: decision, a
confidence in [0, 1] (modelled as ℚ), reasoning text and the list of
suspicious elements. -/
structure AIJudgment where
  decision : String
  confidence : ℚ
  reasoning : String
  suspicious_elements : List String
deriving DecidableEq, Repr

/-- The raw structured data the external judgment call may return before
post-processing: every field may be absent, mirroring an arbitrary parsed
JSON object. -/
structure RawJudgment where
  decision : Option String
  confidence : Option ℚ
  reasoning : Option String
  suspicious_elements : Option (List String)
deriving DecidableEq, Repr

/-- The local permit format check opening aiJudgeDocument: length exactly
5, first character P, remaining characters all digits (the regex on the
substring from index 1). -/
def permitValidFormat (permit : String) : Bool :=
  permit.length == 5 &&
    (match permit.data with
     | c :: rest => c == 'P' && rest.all Char.isDigit
     | [] => false)

/-- JavaScript x || 0.5 on a number: 0.5 exactly when the number is 0
(falsy), used on the parsed confidence. -/
def jsOrHalf (q : ℚ) : ℚ :=
  if q = 0 then 1/2 else q

/-- JavaScript String(x || default) on an optional string: the default when
the field is absent or empty. -/
def jsOrString (s : Option String) (dflt : String) : String :=
  match s with
  | some t => if t = "" then dflt else t
  | none => dflt

/-- The usability test aiJudgeDocument applies to the parsed judgment:
judgmentJson.decision truthy (present and non-empty) and
judgmentJson.confidence defined. -/
def rawUsable (r : RawJudgment) : Bool :=
  (match r.decision with
   | some d => !(d == "")
   | none => false) && r.confidence.isSome

/-- The randomized fallback judgment aiJudgeDocument builds when the
external call returns no usable structured data: Math.random() > 0.4
picks approve (fallbackApprove), confidence is Math.random() * 0.3 + 0.5
(fallbackRand is the draw). -/
def apiFallbackJudgment (fallbackApprove : Bool) (fallbackRand : ℚ) : AIJudgment :=
  { decision := if fallbackApprove then "approve" else "deny"
    confidence := fallbackRand * (3/10) + 1/2
    reasoning := "AI judgment failed or was invalid. Standard verification procedures applied."
    suspicious_elements := [] }

/-- The post-processing aiJudgeDocument applies to the external judgment
result: normalize the decision to the approve/deny enum, clamp the
confidence to [0, 1] after the JavaScript || 0.5 default, default the
reasoning and the suspicious-element list, then with probability 0.30
(flip) invert the decision for gameplay balance, damping the confidence
into [0.1, 0.7]; on unusable data fall back to apiFallbackJudgment. -/
def postProcessJudgment (raw : Option RawJudgment) (flip : Bool)
    (fallbackApprove : Bool) (fallbackRand : ℚ) : AIJudgment :=
  match raw with
  | some r =>
    if rawUsable r then
      let base : AIJudgment :=
        { decision := if r.decision = some "approve" then "approve" else "deny"
          confidence := max 0 (min 1 (jsOrHalf (r.confidence.getD 0)))
          reasoning := jsOrString r.reasoning "No specific reasoning provided by AI."
          suspicious_elements := r.suspicious_elements.getD [] }
      if flip then
        { decision := if base.decision = "approve" then "deny" else "approve"
          confidence := max (1/10) (min (7/10) (base.confidence * (8/10)))
          reasoning := "[Balanced] " ++ base.reasoning
          suspicious_elements := base.suspicious_elements }
      else base
    else apiFallbackJudgment fallbackApprove fallbackRand
  | none => apiFallbackJudgment fallbackApprove fallbackRand

/-- aiJudgeDocument (src/api.js): the local permit format check runs first
and any violation returns a forced deny with confidence 0.95 before the
external judgment is consulted; otherwise the external result is
post-processed. The external call result and the three random draws are
explicit parameters. -/
def aiJudgeDocument (permit : String) (raw : Option RawJudgment) (flip : Bool)
    (fallbackApprove : Bool) (fallbackRand : ℚ) : AIJudgment :=
  if !permitValidFormat permit then
    { decision := "deny"
      confidence := 95/100
      reasoning := "The permit number does not follow the required format of P followed by 4 digits."
      suspicious_elements := ["Invalid permit format"] }
  else
    postProcessJudgment raw flip fallbackApprove fallbackRand

/-! ## Documents and the per-turn fallbacks (src/api.js, src/gameplay.js) -/

/-- A traveler document as GameplayManager handles it. The additional
fields object is omitted: no claim depends on it. is_valid is stamped on by
GameplayManager.generateDocument from the AI decision. -/
structure Document where
  name : String
  permit : String
  backstory : String
  is_valid : Bool := false
deriving DecidableEq, Repr

/-- The raw structured data the external document-generation call may
return: name and backstory (the permit is generated locally). -/
structure RawDoc where
  name : String
  backstory : String
deriving DecidableEq, Repr

/-- The five fallback backstory templates generateDocumentForSetting draws
from when the external call fails. -/
def fallbackBackstories (name : String) : List String :=
  [ name ++ " is seeking entry under standard procedures."
  , name ++ " claims to be visiting family in the area."
  , name ++ " is traveling for business purposes."
  , name ++ " wishes to attend a local cultural event."
  , name ++ " states they are here for a brief tourism visit." ]

/-- generateDocumentForSetting (src/api.js): on usable API data (name and
backstory truthy) the document is the cleaned API data with the locally
generated permit; otherwise a randomized fallback document is built from a
generated fallback name, the same local permit, and a randomly chosen
backstory template. The API result, local permit, fallback name and
backstory draw are explicit parameters; label-prefix stripping and the
random additional fields are omitted as no claim depends on them. The
function always returns a document — it never yields null. -/
def generateDocumentForSetting (apiResult : Option RawDoc) (permit : String)
    (fallbackName : String) (backstoryChoice : Fin 5) : Document :=
  match apiResult with
  | some r =>
    if r.name ≠ "" ∧ r.backstory ≠ "" then
      { name := r.name.trim, permit := permit, backstory := r.backstory.trim }
    else
      { name := fallbackName, permit := permit
        backstory := (fallbackBackstories fallbackName).getD backstoryChoice.val "" }
  | none =>
    { name := fallbackName, permit := permit
      backstory := (fallbackBackstories fallbackName).getD backstoryChoice.val "" }

/-- The fixed error document GameplayManager.generateDocument substitutes
when document generation returns no usable data (src/gameplay.js line
172). -/
def errorDocument : Document :=
  { name := "Error", permit := "P0000"
    backstory := "Document generation failed.", is_valid := false }

/-- The fixed fallback judgment GameplayManager.generateDocument assigns
when the AI judgment call returns nothing (src/gameplay.js lines 181-187). -/
def fallbackJudgment : AIJudgment :=
  { decision := "deny"
    confidence := 1/2
    reasoning := "AI judgment system unavailable."
    suspicious_elements := ["AI system unavailable"] }

/-- The turn-level shape of GameplayManager.generateDocument
(src/gameplay.js lines 153-196): if the generation call returned no
document, return the fixed error document at once (the stored judgment is
left as it was); otherwise take the judgment call result, substituting
fallbackJudgment when it is absent, and stamp is_valid onto the document
from the decision. Returns the current document and the stored judgment. -/
def generateDocumentStep (documentData : Option Document)
    (judgeResult : Option AIJudgment) (priorJudgment : Option AIJudgment) :
    Document × Option AIJudgment :=
  match documentData with
  | none => (errorDocument, priorJudgment)
  | some d =>
    let aiJudgment := match judgeResult with
      | some j => j
      | none => fallbackJudgment
    ({ d with is_valid := aiJudgment.decision == "approve" }, some aiJudgment)

/-! ## Durable memory and persistence (src/memory.js) -/

/-- The gameConfig record inside the settings data. -/
structure GameConfig where
  totalDays : Int
  travelersPerDay : Int
  allowCustomization : Bool
deriving DecidableEq, Repr

/-- The settings block of the memory: current setting id, custom rules,
game configuration. -/
structure SettingsData where
  currentSettingId : Option String
  customRules : List String
  gameConfig : GameConfig
deriving DecidableEq, Repr

/-- A border setting record as held in memory.borderSetting. -/
structure BorderSetting where
  id : String
  name : String
  situation : String
  description : String
  document_requirements : List String
  common_issues : List String
deriving DecidableEq, Repr

/-- The essential traveler fields stored in the traveler history. -/
structure TravelerInfo where
  name : String
  permit : String
deriving DecidableEq, Repr

/-- One entry of memory.travelerHistory. -/
structure TravelerRecord where
  traveler : TravelerInfo
  timestamp : String
  day : Int
deriving DecidableEq, Repr

/-- The key parts of the AI judgment stored with a decision. -/
structure JudgmentSummary where
  decision : Option String
  confidence : Option ℚ
deriving DecidableEq, Repr

/-- One entry of memory.decisions. -/
structure DecisionRecord where
  travelerName : String
  decision : String
  correct : Bool
  aiJudgment : JudgmentSummary
  timestamp : String
  day : Int
deriving DecidableEq, Repr

/-- One entry of memory.narrativeEvents. -/
structure NarrativeEvent where
  text : String
  type : String
  day : Int
  timestamp : String
deriving DecidableEq, Repr

/-- One entry of memory.ruleChanges. -/
structure RuleChange where
  description : String
  day : Int
  timestamp : String
deriving DecidableEq, Repr

/-- The MemoryManager memory object. The usedNames JavaScript Set is
modelled as its insertion-ordered, duplicate-free element list. -/
structure Memory where
  borderSetting : Option BorderSetting
  gameState : GameState
  settings : SettingsData
  travelerHistory : List TravelerRecord
  decisions : List DecisionRecord
  narrativeEvents : List NarrativeEvent
  ruleChanges : List RuleChange
  usedNames : List String
deriving DecidableEq, Repr

/-- MemoryManager.getDefaultMemory (src/memory.js lines 35-59). -/
def getDefaultMemory : Memory :=
  { borderSetting := none
    gameState := defaultGameState
    settings :=
      { currentSettingId := none
        customRules := []
        gameConfig := { totalDays := 10, travelersPerDay := 5, allowCustomization := true } }
    travelerHistory := []
    decisions := []
    narrativeEvents := []
    ruleChanges := []
    usedNames := [] }

/-- JavaScript Set.add on the insertion-ordered element list: append the
element when it is not already present. -/
def setAdd (l : List String) (x : String) : List String :=
  if x ∈ l then l else l ++ [x]

/-- The bounded-history append pattern of src/memory.js: push the new
entry, then shift the oldest one off if the length now exceeds the
capacity. -/
def pushEvict {α : Type} (cap : Nat) (l : List α) (x : α) : List α :=
  let pushed := l ++ [x]
  if pushed.length > cap then pushed.tail else pushed

/-- MemoryManager.addTraveler (src/memory.js lines 120-162): a silent no-op
when the traveler data is falsy or lacks a name; otherwise record the name
as used and append to the traveler history and the decision history, each
with capacity 15. The shared timestamp is an explicit parameter. -/
def addTraveler (m : Memory) (travelerData : Option Document) (decision : String)
    (isCorrect : Bool) (aiJudgment : Option AIJudgment) (timestamp : String) : Memory :=
  match travelerData with
  | none => m
  | some td =>
    if td.name = "" then m
    else
      { m with
        usedNames := setAdd m.usedNames td.name
        travelerHistory := pushEvict 15 m.travelerHistory
          { traveler := { name := td.name, permit := td.permit }
            timestamp := timestamp
            day := m.gameState.day }
        decisions := pushEvict 15 m.decisions
          { travelerName := td.name
            decision := decision
            correct := isCorrect
            aiJudgment :=
              { decision := aiJudgment.map (fun j => j.decision)
                confidence := aiJudgment.map (fun j => j.confidence) }
            timestamp := timestamp
            day := m.gameState.day } }

/-- MemoryManager.addNarrativeEvent (src/memory.js lines 169-180):
append with capacity 20. -/
def addNarrativeEvent (m : Memory) (eventText eventType timestamp : String) : Memory :=
  { m with
    narrativeEvents := pushEvict 20 m.narrativeEvents
      { text := eventText, type := eventType
        day := m.gameState.day, timestamp := timestamp } }

/-- MemoryManager.addRuleChange (src/memory.js lines 186-196):
append with capacity 10. -/
def addRuleChange (m : Memory) (ruleDescription timestamp : String) : Memory :=
  { m with
    ruleChanges := pushEvict 10 m.ruleChanges
      { description := ruleDescription
        day := m.gameState.day, timestamp := timestamp } }

/-- One history-append operation, as performed by the three memory append
methods. -/
inductive MemStep : Memory → Memory → Prop where
  | traveler (m : Memory) (td : Option Document) (decision : String) (b : Bool)
      (j : Option AIJudgment) (ts : String) :
      MemStep m (addTraveler m td decision b j ts)
  | event (m : Memory) (text ty ts : String) :
      MemStep m (addNarrativeEvent m text ty ts)
  | rule (m : Memory) (desc ts : String) :
      MemStep m (addRuleChange m desc ts)

/-- The capacity bounds the spec states for the four histories. -/
def capsOK (m : Memory) : Prop :=
  m.travelerHistory.length ≤ 15 ∧ m.decisions.length ≤ 15 ∧
  m.narrativeEvents.length ≤ 20 ∧ m.ruleChanges.length ≤ 10

instance (m : Memory) : Decidable (capsOK m) := by
  unfold capsOK; infer_instance

/-- MemoryManager.saveCurrentSession (src/memory.js lines 398-424) writes
the memory with usedNames converted from Set to Array. On the list model
of the Set, Array.from is the identity, so the persisted snapshot carries
every field of the memory unchanged. -/
def persistSnapshot (m : Memory) : Memory :=
  { m with usedNames := m.usedNames }

/-- The merge MemoryManager.loadGame performs on a parsed snapshot:
defaults spread first, loaded fields over them, gameState and settings
merged one level deeper, and usedNames rebuilt as new Set(list). A
persisted snapshot carries every field, so each spread resolves to the
loaded value; fields a legacy snapshot lacks are the defaults, which this
total model already encodes (absent streak fields read as 0). -/
def restoreMerge (loaded : Memory) : Memory :=
  { borderSetting := loaded.borderSetting
    gameState := loaded.gameState
    settings := loaded.settings
    travelerHistory := loaded.travelerHistory
    decisions := loaded.decisions
    narrativeEvents := loaded.narrativeEvents
    ruleChanges := loaded.ruleChanges
    usedNames := loaded.usedNames.foldl setAdd [] }

/-- MemoryManager.loadGame (src/memory.js lines 321-359). A relative path
is rejected with an early return false before anything is touched; a read
or parse failure lands in the catch block, which resets the memory to the
default (resetMemory) and returns false; otherwise the merged snapshot
replaces the memory and the call returns true. The file read and JSON
parse are modelled by the Option: none is an unreadable or malformed
source. -/
def loadGame (isAbsolutePath : Bool) (data : Option Memory) (current : Memory) :
    Bool × Memory :=
  if !isAbsolutePath then (false, current)
  else
    match data with
    | none => (false, getDefaultMemory)
    | some loaded => (true, restoreMerge loaded)

/-- The score assignment in GameplayManager.loadGame (src/gameplay.js lines
485-490): the previous score is overwritten by a reduce whose callback
always returns 0 over the loaded decisions, from initial value 0. The
prior score is a parameter only to show it is ignored. -/
def gameplayLoadedScore (_priorScore : ℚ) (loadedDecisions : List DecisionRecord) : ℚ :=
  loadedDecisions.foldl (fun _totalScore _decision => (0 : ℚ)) 0

/-! ## Scoring (src/gameplay.js makeDecision) -/

/-- Math.round(x * 100) / 100 on an exact rational: JavaScript Math.round
is floor of x + 1/2. -/
def round2 (q : ℚ) : ℚ :=
  (⌊q * 100 + 1/2⌋ : ℚ) / 100

/-- The score update of GameplayManager.makeDecision: points earned are
1 * confidence when the decision matches the AI decision and 0 otherwise;
the running score is rounded to 2 decimals after the addition. -/
def makeDecisionScore (score : ℚ) (isCorrect : Bool) (confidence : ℚ) : ℚ :=
  let pointsEarned := if isCorrect then 1 * confidence else 0
  round2 (score + pointsEarned)

/-- The running score after a sequence of decisions, each a correctness
flag paired with the judgment confidence, starting from 0. -/
def runScore (ds : List (Bool × ℚ)) : ℚ :=
  ds.foldl (fun s d => makeDecisionScore s d.1 d.2) 0

/-- The plain sum of confidences over the correct decisions only — the
quantity the claim compares the running score against. -/
def sumConf (ds : List (Bool × ℚ)) : ℚ :=
  ds.foldl (fun acc d => acc + (if d.1 then d.2 else 0)) 0

end Veritaminal

namespace Veritaminal

/-! ## Theorems -/

/-- C1: GameplayManager.updateGameState implements the documented streak
escalation. On a correct decision the incorrect streak resets, corruption
is untouched, the correct streak increments, and exactly when it reaches 2
trust gains 1 and the streak resets (trust otherwise unchanged). On an
incorrect decision the correct streak resets, trust drops by exactly 1
unconditionally, the incorrect streak increments, and exactly when it
reaches 2 corruption gains 1 and the streak resets. Stated for states whose
streak counters are at most 1, which is every reachable state. -/
theorem updateGameState_streak_escalation (d : String) (s : GameState)
    (hc : s.correctStreak ≤ 1) (hi : s.incorrectStreak ≤ 1) :
    ((updateGameState d true s).incorrectStreak = 0 ∧
      (updateGameState d true s).corruption = s.corruption ∧
      (s.correctStreak + 1 = 2 →
        (updateGameState d true s).trust = s.trust + 1 ∧
        (updateGameState d true s).correctStreak = 0) ∧
      (s.correctStreak + 1 < 2 →
        (updateGameState d true s).trust = s.trust ∧
        (updateGameState d true s).correctStreak = s.correctStreak + 1)) ∧
    ((updateGameState d false s).correctStreak = 0 ∧
      (updateGameState d false s).trust = s.trust - 1 ∧
      (s.incorrectStreak + 1 = 2 →
        (updateGameState d false s).corruption = s.corruption + 1 ∧
        (updateGameState d false s).incorrectStreak = 0) ∧
      (s.incorrectStreak + 1 < 2 →
        (updateGameState d false s).corruption = s.corruption ∧
        (updateGameState d false s).incorrectStreak = s.incorrectStreak + 1)) := by
  obtain ⟨day, corruption, trust, cs, is⟩ := s
  simp only at hc hi
  interval_cases cs <;> interval_cases is <;> simp [updateGameState]

/-- Witness for C1 at concrete inputs: a second consecutive correct decision
raises trust by 1 and resets the streak; a first incorrect decision drops
trust by 1 without touching corruption. -/
theorem updateGameState_streak_escalation_witness :
    (updateGameState "approve" true
        { day := 1, corruption := 0, trust := 0, correctStreak := 1, incorrectStreak := 0 }).trust
      = 0 + 1 ∧
    (updateGameState "deny" false
        { day := 1, corruption := 0, trust := 0, correctStreak := 0, incorrectStreak := 0 }).trust
      = 0 - 1 := by
  have h1 := updateGameState_streak_escalation "approve"
    { day := 1, corruption := 0, trust := 0, correctStreak := 1, incorrectStreak := 0 }
    (by decide) (by decide)
  have h2 := updateGameState_streak_escalation "deny"
    { day := 1, corruption := 0, trust := 0, correctStreak := 0, incorrectStreak := 0 }
    (by decide) (by decide)
  exact ⟨(h1.1.2.2.1 rfl).1, h2.2.2.1⟩

/-- C3 counterexample: the state with corruption 5 and trust -5 is a state
on which the claim requires ending type bad_strict (trust ≤ -5), but
NarrativeManager.checkGameOver returns bad_corrupt because the corruption
branch is tested first. Such a state is reachable: one incorrect decision
from corruption 4, trust -4, incorrectStreak 1 crosses both thresholds at
once. -/
theorem checkGameOver_both_thresholds_counterexample :
    (checkGameOver 5 (-5)).isGameOver = true ∧
    (checkGameOver 5 (-5)).endingType = some "bad_corrupt" ∧
    (checkGameOver 5 (-5)).endingType ≠ some "bad_strict" ∧
    updateGameState "deny" false
        { day := 1, corruption := 4, trust := -4, correctStreak := 0, incorrectStreak := 1 }
      = { day := 1, corruption := 5, trust := -5, correctStreak := 0, incorrectStreak := 0 } := by
  refine ⟨rfl, rfl, by decide, ?_⟩
  simp [updateGameState]

/-- C3 amended: checkGameOver is terminal exactly on corruption ≥ 5 or
trust ≤ -5; corruption ≥ 5 yields ending bad_corrupt; trust ≤ -5 yields
bad_strict only when corruption < 5 (the corruption branch takes
precedence); below both thresholds there is no game over. The threshold
check also runs after every state transition, not only at day boundaries:
updateGameState ends by running checkGameOverConditions on the new state,
setting gameCompleted accordingly, and that guard agrees with
checkGameOver. -/
theorem checkGameOver_thresholds (corruption trust : Int) (d : String)
    (b : Bool) (g : GameplayState) :
    ((checkGameOver corruption trust).isGameOver = true ↔
      (corruption ≥ 5 ∨ trust ≤ -5)) ∧
    (corruption ≥ 5 → (checkGameOver corruption trust).endingType = some "bad_corrupt") ∧
    (trust ≤ -5 → corruption < 5 →
      (checkGameOver corruption trust).endingType = some "bad_strict") ∧
    (corruption < 5 → trust > -5 →
      (checkGameOver corruption trust).isGameOver = false) ∧
    ((updateGameStateChecked d b g).gameCompleted =
      (g.gameCompleted ||
        checkGameOverConditions (updateGameState d b g.gameState))) ∧
    (checkGameOverConditions (updateGameState d b g.gameState) =
      (checkGameOver (updateGameState d b g.gameState).corruption
        (updateGameState d b g.gameState).trust).isGameOver) := by
  refine ⟨?_, ?_, ?_, ?_, rfl, ?_⟩
  · unfold checkGameOver
    split
    · simp; omega
    · split <;> simp <;> omega
  · intro h; simp [checkGameOver, h]
  · intro h1 h2; rw [checkGameOver, if_neg (by omega), if_pos h1]
  · intro h1 h2; rw [checkGameOver, if_neg (by omega), if_neg (by omega)]
  · unfold checkGameOverConditions checkGameOver
    split
    · simp_all
    · split <;> simp_all

/-- Witness for C3 amended at concrete inputs: corruption 5 ends
bad_corrupt, trust -5 with low corruption ends bad_strict, and a
mid-day transition from a benign state reports no game over. -/
theorem checkGameOver_thresholds_witness :
    (checkGameOver 5 0).endingType = some "bad_corrupt" ∧
    (checkGameOver 0 (-5)).endingType = some "bad_strict" ∧
    (checkGameOver 0 0).isGameOver = false := by
  have h1 := checkGameOver_thresholds 5 0 "approve" true
    { gameState := defaultGameState, gameCompleted := false }
  have h2 := checkGameOver_thresholds 0 (-5) "approve" true
    { gameState := defaultGameState, gameCompleted := false }
  have h3 := checkGameOver_thresholds 0 0 "approve" true
    { gameState := defaultGameState, gameCompleted := false }
  exact ⟨h1.2.1 (by decide), h2.2.2.1 (by decide) (by decide),
    h3.2.2.2.1 (by decide) (by decide)⟩

/-- C5 counterexample: the default game state is reachable and has both
streak counters equal to 0, so it does not satisfy the claimed invariant
that exactly one of the two streaks is non-zero. -/
theorem exactlyOneStreak_default_counterexample :
    ReachableGS defaultGameState ∧ ¬ exactlyOneStreakNonzero defaultGameState :=
  ⟨ReachableGS.init, by decide⟩

/-- C5 amended: on every reachable game state at most one of the two streak
counters is non-zero — their product is always 0. Both are 0 in the default
state and again whenever a streak bonus or penalty has just been applied. -/
theorem reachable_streak_product_zero (s : GameState) (h : ReachableGS s) :
    s.correctStreak * s.incorrectStreak = 0 := by
  induction h with
  | init => rfl
  | step d b t _ _ =>
    unfold updateGameState
    split
    · dsimp only
      split <;> simp
    · dsimp only
      split <;> simp

/-- Witness for C5 amended: the invariant applied to the concrete state
reached by one correct decision from the default state. -/
theorem reachable_streak_product_zero_witness :
    (updateGameState "approve" true defaultGameState).correctStreak *
      (updateGameState "approve" true defaultGameState).incorrectStreak = 0 :=
  reachable_streak_product_zero _
    (ReachableGS.step "approve" true defaultGameState ReachableGS.init)

/-- C2: the permit format predicate holds exactly of the strings that are
the character P followed by exactly 4 digits; on such permits
aiJudgeDocument is exactly the post-processed external judgment (the local
check never forces anything); on every other permit it returns the forced
deny with confidence exactly 0.95, identically for every external judgment
and every random draw — the external judgment is never consulted. -/
theorem aiJudgeDocument_permit_override (permit : String)
    (raw raw2 : Option RawJudgment) (flip flip2 fa fa2 : Bool) (fr fr2 : ℚ) :
    (permitValidFormat permit = true ↔
      ∃ c1 c2 c3 c4, permit.data = ['P', c1, c2, c3, c4] ∧
        (c1.isDigit ∧ c2.isDigit ∧ c3.isDigit ∧ c4.isDigit)) ∧
    (permitValidFormat permit = true →
      aiJudgeDocument permit raw flip fa fr = postProcessJudgment raw flip fa fr) ∧
    (permitValidFormat permit = false →
      (aiJudgeDocument permit raw flip fa fr).decision = "deny" ∧
      (aiJudgeDocument permit raw flip fa fr).confidence = 95/100 ∧
      aiJudgeDocument permit raw flip fa fr = aiJudgeDocument permit raw2 flip2 fa2 fr2) := by
  refine ⟨?_, ?_, ?_⟩
  · obtain ⟨l⟩ := permit
    constructor
    · intro h
      simp only [permitValidFormat, String.length] at h
      rcases l with _ | ⟨a, l⟩
      · simp at h
      rcases l with _ | ⟨b, l⟩
      · simp at h
      rcases l with _ | ⟨c, l⟩
      · simp at h
      rcases l with _ | ⟨d, l⟩
      · simp at h
      rcases l with _ | ⟨e, l⟩
      · simp at h
      rcases l with _ | ⟨f, l⟩
      · simp only [Bool.and_eq_true, beq_iff_eq, List.all_cons, List.all_nil,
          Bool.and_true] at h
        obtain ⟨-, hP, hb, hc, hd, he⟩ := h
        exact ⟨b, c, d, e, by rw [hP], hb, hc, hd, he⟩
      · simp at h
    · rintro ⟨c1, c2, c3, c4, hl, h1, h2, h3, h4⟩
      have : l = ['P', c1, c2, c3, c4] := hl
      subst this
      simp [permitValidFormat, String.length, h1, h2, h3, h4]
  · intro h
    unfold aiJudgeDocument
    rw [h]
    simp
  · intro h
    unfold aiJudgeDocument
    rw [h]
    simp

/-- Witness for C2 at concrete inputs: P1234 passes the format predicate,
and X1234 is force-denied with confidence 0.95. -/
theorem aiJudgeDocument_permit_override_witness :
    permitValidFormat "P1234" = true ∧
    (aiJudgeDocument "X1234" none false false 0).decision = "deny" ∧
    (aiJudgeDocument "X1234" none false false 0).confidence = 95/100 := by
  have hx := aiJudgeDocument_permit_override "X1234" none none false false false false 0 0
  have hp := aiJudgeDocument_permit_override "P1234" none none false false false false 0 0
  refine ⟨hp.1.mpr ⟨'1', '2', '3', '4', rfl, by decide, by decide, by decide, by decide⟩,
    (hx.2.2 (by decide)).1, (hx.2.2 (by decide)).2.1⟩

/-- C6 counterexample: when the external calls fail to return usable
structured data, the substituted fallbacks are randomized, not the fixed
ones the claim states. With the generation call failing and the fallback
name draw yielding Alex Smith, the substituted document is named Alex
Smith, not Error; with the judgment call failing and the fallback draws
yielding the approve branch and 1/3, aiJudgeDocument substitutes an
approve judgment with confidence 3/5, not deny with confidence 0.5. -/
theorem turn_fallbacks_counterexample :
    (generateDocumentForSetting none "P1234" "Alex Smith" (0 : Fin 5)).name = "Alex Smith" ∧
    "Alex Smith" ≠ "Error" ∧
    (aiJudgeDocument "P1234" none false true (1/3)).decision = "approve" ∧
    (aiJudgeDocument "P1234" none false true (1/3)).confidence = 3/5 ∧
    "approve" ≠ "deny" := by
  have hp : permitValidFormat "P1234" = true := by decide
  refine ⟨rfl, by decide, rfl, ?_, by decide⟩
  simp only [aiJudgeDocument, hp, Bool.not_true, Bool.false_eq_true, if_false,
    postProcessJudgment, apiFallbackJudgment]
  norm_num

/-- C6 amended: the fixed fallbacks live in GameplayManager.generateDocument
and fire only when the corresponding call returns nothing: a missing
document is replaced by the fixed Error document (name Error, permit P0000)
and the turn returns at once; a missing judgment is replaced by the fixed
deny judgment with confidence exactly 0.5. Inside the API layer the
substitutes are randomized instead: a failed generation call yields a
fallback document built from the random fallback name, and a failed
judgment call yields apiFallbackJudgment from the two random draws. In
every case the turn proceeds with a concrete document and judgment. -/
theorem turn_fallbacks (jr prior : Option AIJudgment) (d : Document)
    (permit fallbackName : String) (choice : Fin 5) (flip fa : Bool) (fr : ℚ) :
    generateDocumentStep none jr prior = (errorDocument, prior) ∧
    errorDocument.name = "Error" ∧ errorDocument.permit = "P0000" ∧
    generateDocumentStep (some d) none prior
      = ({ d with is_valid := false }, some fallbackJudgment) ∧
    fallbackJudgment.decision = "deny" ∧ fallbackJudgment.confidence = 1/2 ∧
    (generateDocumentForSetting none permit fallbackName choice).name = fallbackName ∧
    postProcessJudgment none flip fa fr = apiFallbackJudgment fa fr := by
  exact ⟨rfl, rfl, rfl, rfl, rfl, rfl, rfl, rfl⟩

/-- Rounding to 2 decimals is the identity on integer multiples of 1/100. -/
theorem round2_int_div (k : ℤ) : round2 ((k : ℚ)/100) = (k : ℚ)/100 := by
  unfold round2
  have h : (k : ℚ)/100 * 100 + 1/2 = (k : ℚ) + 1/2 := by ring
  rw [h, Int.floor_int_add]
  norm_num

/-- A score update on an incorrect decision leaves a 2-decimal score
unchanged: zero points are added and rounding is the identity. -/
theorem makeDecisionScore_false (k : ℤ) (c : ℚ) :
    makeDecisionScore ((k : ℚ)/100) false c = (k : ℚ)/100 := by
  unfold makeDecisionScore
  simpa using round2_int_div k

/-- A score update on a correct decision with a 2-decimal confidence adds
the confidence exactly. -/
theorem makeDecisionScore_true (k j : ℤ) :
    makeDecisionScore ((k : ℚ)/100) true ((j : ℚ)/100) = ((k + j : ℤ) : ℚ)/100 := by
  simp only [makeDecisionScore, if_pos]
  rw [show (k : ℚ)/100 + 1 * ((j : ℚ)/100) = ((k + j : ℤ) : ℚ)/100 by push_cast; ring]
  exact round2_int_div (k + j)

/-- Every score the update can produce is an integer multiple of 1/100. -/
theorem foldl_score_int_form (ds : List (Bool × ℚ)) :
    ∀ k : ℤ, ∃ m : ℤ,
      ds.foldl (fun s d => makeDecisionScore s d.1 d.2) ((k : ℚ)/100) = (m : ℚ)/100 := by
  induction ds with
  | nil => exact fun k => ⟨k, rfl⟩
  | cons d t ih =>
    intro k
    obtain ⟨m, hm⟩ : ∃ m : ℤ,
        makeDecisionScore ((k : ℚ)/100) d.1 d.2 = (m : ℚ)/100 := ⟨_, rfl⟩
    rw [List.foldl_cons, hm]
    exact ih m

/-- Folding plain addition of awarded points from any start. -/
theorem sumConf_foldl_from (ds : List (Bool × ℚ)) :
    ∀ a : ℚ, ds.foldl (fun acc d => acc + (if d.1 then d.2 else 0)) a
      = a + (ds.map (fun d => if d.1 then d.2 else 0)).sum := by
  induction ds with
  | nil => intro a; simp
  | cons d t ih =>
    intro a
    rw [List.foldl_cons, ih, List.map_cons, List.sum_cons]
    ring

/-- When every correct confidence is a 2-decimal multiple, the iterated
rounded score from any 2-decimal start adds the points exactly. -/
theorem runScore_foldl_int (ds : List (Bool × ℚ))
    (h : ∀ d ∈ ds, d.1 = true → ∃ j : ℤ, d.2 = (j : ℚ)/100) :
    ∀ k : ℤ, ds.foldl (fun s d => makeDecisionScore s d.1 d.2) ((k : ℚ)/100)
      = (k : ℚ)/100 + (ds.map (fun d => if d.1 then d.2 else 0)).sum := by
  induction ds with
  | nil => intro k; simp
  | cons d t ih =>
    intro k
    obtain ⟨b, c⟩ := d
    rcases b with _ | _
    · rw [List.foldl_cons]
      have h1 : makeDecisionScore ((k : ℚ)/100) false c = (k : ℚ)/100 :=
        makeDecisionScore_false k c
      rw [h1, ih (fun d hd => h d (List.mem_cons_of_mem _ hd)) k]
      simp
    · obtain ⟨j, hj⟩ := h (true, c) (List.mem_cons_self _ _) rfl
      have hj' : c = (j : ℚ)/100 := hj
      rw [List.foldl_cons]
      have h1 : makeDecisionScore ((k : ℚ)/100) true c = ((k + j : ℤ) : ℚ)/100 := by
        rw [hj']; exact makeDecisionScore_true k j
      rw [h1, ih (fun d hd => h d (List.mem_cons_of_mem _ hd)) (k + j)]
      simp only [List.map_cons, List.sum_cons, if_pos]
      rw [hj']
      push_cast
      ring

/-- The awarded-points sum is itself a 2-decimal multiple when every
correct confidence is one. -/
theorem sum_points_int_form (ds : List (Bool × ℚ))
    (h : ∀ d ∈ ds, d.1 = true → ∃ j : ℤ, d.2 = (j : ℚ)/100) :
    ∃ m : ℤ, (ds.map (fun d => if d.1 then d.2 else 0)).sum = (m : ℚ)/100 := by
  induction ds with
  | nil => exact ⟨0, by simp⟩
  | cons d t ih =>
    obtain ⟨m, hm⟩ := ih (fun d hd => h d (List.mem_cons_of_mem _ hd))
    obtain ⟨b, c⟩ := d
    rcases b with _ | _
    · exact ⟨m, by simpa using hm⟩
    · obtain ⟨j, hj⟩ := h (true, c) (List.mem_cons_self _ _) rfl
      have hj' : c = (j : ℚ)/100 := hj
      refine ⟨j + m, ?_⟩
      rw [List.map_cons, List.sum_cons, hm]
      simp only [if_pos]
      rw [hj']
      push_cast
      ring

/-- C4 counterexample: the code rounds after every update, so the running
score is not the rounded sum. Two correct decisions of confidence 1/250
(0.004) each leave the running score at 0, while the sum of confidences
rounded to 2 decimals is 0.01. -/
theorem makeDecision_rounding_counterexample :
    runScore [(true, 1/250), (true, 1/250)] = 0 ∧
    round2 (sumConf [(true, 1/250), (true, 1/250)]) = 1/100 ∧
    runScore [(true, 1/250), (true, 1/250)]
      ≠ round2 (sumConf [(true, 1/250), (true, 1/250)]) := by
  have f1 : ⌊(9/10 : ℚ)⌋ = 0 := by
    rw [Int.floor_eq_iff]
    norm_num
  have f2 : ⌊(13/10 : ℚ)⌋ = 1 := by
    rw [Int.floor_eq_iff]
    norm_num
  have e1 : makeDecisionScore 0 true (1/250) = 0 := by
    simp only [makeDecisionScore, if_pos, round2]
    rw [show ((0 : ℚ) + 1 * (1/250)) * 100 + 1/2 = 9/10 by norm_num, f1]
    norm_num
  have h1 : runScore [(true, 1/250), (true, 1/250)] = 0 := by
    simp only [runScore, List.foldl_cons, List.foldl_nil]
    rw [e1]
    exact e1
  have hs : sumConf [(true, 1/250), (true, 1/250)] = 1/125 := by
    simp only [sumConf, List.foldl_cons, List.foldl_nil]
    norm_num
  have h2 : round2 (sumConf [(true, 1/250), (true, 1/250)]) = 1/100 := by
    rw [hs, round2, show ((1 : ℚ)/125) * 100 + 1/2 = 13/10 by norm_num, f2]
    norm_num
  exact ⟨h1, h2, by rw [h1, h2]; norm_num⟩

/-- C4 amended: the running score is the fold that adds confidence on a
correct decision, 0 on an incorrect one, rounding to 2 decimals after
every individual update. Whenever each correct confidence is an exact
2-decimal multiple (an integer multiple of 0.01) the result coincides with
the sum of the correct confidences rounded to 2 decimals; and an incorrect
decision contributes exactly 0 points and never changes (in particular
never decreases) the score, unconditionally. -/
theorem makeDecision_scoring (ds : List (Bool × ℚ)) (c : ℚ) :
    ((∀ d ∈ ds, d.1 = true → ∃ j : ℤ, d.2 = (j : ℚ)/100) →
      runScore ds = round2 (sumConf ds)) ∧
    runScore (ds ++ [(false, c)]) = runScore ds := by
  constructor
  · intro h
    have h0 : ((0 : ℤ) : ℚ)/100 = 0 := by norm_num
    have h1 := runScore_foldl_int ds h 0
    rw [h0] at h1
    have h2 := sumConf_foldl_from ds 0
    obtain ⟨m, hm⟩ := sum_points_int_form ds h
    rw [runScore, h1, hm, zero_add]
    rw [sumConf, h2, hm, zero_add]
    exact (round2_int_div m).symm
  · have h0 : ((0 : ℤ) : ℚ)/100 = 0 := by norm_num
    obtain ⟨m, hm⟩ := foldl_score_int_form ds 0
    rw [h0] at hm
    rw [runScore, runScore, List.foldl_append, hm]
    simpa using makeDecisionScore_false m c

/-- Witness for C4 amended at a concrete input: a single correct decision
of confidence 0.9 gives running score equal to the rounded sum (0.90). -/
theorem makeDecision_scoring_witness :
    runScore [(true, 9/10)] = round2 (sumConf [(true, 9/10)]) := by
  refine (makeDecision_scoring [(true, 9/10)] 0).1 ?_
  intro d hd hb
  simp only [List.mem_singleton] at hd
  subst hd
  exact ⟨90, by norm_num⟩

/-- Folding Set.add over a duplicate-free list disjoint from the
accumulator appends it unchanged. -/
theorem foldl_setAdd_append (l : List String) :
    ∀ acc : List String, (acc ++ l).Nodup → l.foldl setAdd acc = acc ++ l := by
  induction l with
  | nil => intro acc _; simp
  | cons x xs ih =>
    intro acc h
    have hx : x ∉ acc := by
      rw [List.nodup_append] at h
      intro hmem
      exact h.2.2 hmem (List.mem_cons_self _ _)
    rw [List.foldl_cons, show setAdd acc x = acc ++ [x] from by
      unfold setAdd; rw [if_neg hx]]
    rw [ih (acc ++ [x]) (by simpa [List.append_assoc] using h)]
    simp

/-- Rebuilding a JavaScript Set from a duplicate-free element list gives
the list back. -/
theorem foldl_setAdd_nil (l : List String) (h : l.Nodup) :
    l.foldl setAdd [] = l := by
  simpa using foldl_setAdd_append l [] (by simpa using h)

/-- C7: persisting the session and restoring from the written snapshot is
the identity on the memory: identical GameState, identical settings data,
and all four bounded histories with identical content and order, as well
as the used-name set (its duplicate freedom is the Set representation
invariant). The narrative warning flags live outside the persisted memory
and are the only runtime state allowed to reset. -/
theorem persist_restore_roundtrip (m current : Memory) (h : m.usedNames.Nodup) :
    loadGame true (some (persistSnapshot m)) current = (true, m) := by
  unfold loadGame persistSnapshot
  simp only [Bool.not_true, Bool.false_eq_true, if_false]
  obtain ⟨bs, gs, st, th, dec, ne, rc, un⟩ := m
  simp only [restoreMerge, Prod.mk.injEq, Memory.mk.injEq, true_and]
  exact foldl_setAdd_nil un h

/-- Witness for C7 on a concrete non-trivial memory: a day-3 state with a
rule change and two used names survives the round trip unchanged. -/
theorem persist_restore_roundtrip_witness :
    loadGame true
      (some (persistSnapshot
        { getDefaultMemory with
            gameState := { day := 3, corruption := 1, trust := -1,
                           correctStreak := 0, incorrectStreak := 1 }
            ruleChanges := [{ description := "Increased scrutiny protocols active."
                              day := 3, timestamp := "t1" }]
            usedNames := ["Alex Smith", "Jordan Chen"] }))
      getDefaultMemory
    = (true,
        { getDefaultMemory with
            gameState := { day := 3, corruption := 1, trust := -1,
                           correctStreak := 0, incorrectStreak := 1 }
            ruleChanges := [{ description := "Increased scrutiny protocols active."
                              day := 3, timestamp := "t1" }]
            usedNames := ["Alex Smith", "Jordan Chen"] }) :=
  persist_restore_roundtrip _ getDefaultMemory (by decide)

/-- C8 counterexample: a failing restore attempt does not always leave the
memory reset to the default. Calling loadGame with a relative path on a
day-3 memory returns false with the memory untouched, hence not the
default. -/
theorem loadGame_failure_counterexample :
    (loadGame false none
        { getDefaultMemory with
            gameState := { day := 3, corruption := 1, trust := -1,
                           correctStreak := 0, incorrectStreak := 1 } }).1 = false ∧
    (loadGame false none
        { getDefaultMemory with
            gameState := { day := 3, corruption := 1, trust := -1,
                           correctStreak := 0, incorrectStreak := 1 } }).2
      ≠ getDefaultMemory := by
  exact ⟨rfl, by decide⟩

/-- C8 amended: a restore that fails reading or parsing the source (the
catch path) leaves the memory reset to the default, never partially
merged; the relative-path precheck, however, returns false with the
memory left exactly as it was (also never partially merged). -/
theorem loadGame_failure_reset (data : Option Memory) (current : Memory) :
    loadGame true none current = (false, getDefaultMemory) ∧
    loadGame false data current = (false, current) :=
  ⟨rfl, rfl⟩

/-- A bounded-history append never grows past the capacity. -/
theorem pushEvict_length_le {α : Type} (cap : Nat) (l : List α) (x : α)
    (h : l.length ≤ cap) : (pushEvict cap l x).length ≤ cap := by
  unfold pushEvict
  dsimp only
  split
  · simp
    omega
  · next h2 =>
    simp only [List.length_append, List.length_cons, List.length_nil] at h2 ⊢
    omega

/-- C9: starting from any memory within the capacity bounds, every
sequence of history-append operations stays within them: travelerHistory
and decisions hold at most 15 entries, narrativeEvents at most 20,
ruleChanges at most 10 (the default memory satisfies the bounds, so every
reachable memory does); and the append is FIFO: below capacity the new
entry is appended, at capacity the oldest entry alone is removed and the
order of the remaining entries is preserved. -/
theorem histories_bounded {α : Type} (cap : Nat) (l : List α) (x : α)
    (m m' : Memory) (hsteps : Relation.ReflTransGen MemStep m m') :
    (capsOK m → capsOK m') ∧
    capsOK getDefaultMemory ∧
    (l.length < cap → pushEvict cap l x = l ++ [x]) ∧
    (0 < cap → l.length = cap → pushEvict cap l x = l.tail ++ [x]) := by
  refine ⟨?_, by decide, ?_, ?_⟩
  · intro h0
    induction hsteps with
    | refl => exact h0
    | tail _ hstep ih =>
      obtain ⟨h1, h2, h3, h4⟩ := ih
      cases hstep with
      | traveler td d b j ts =>
        cases td with
        | none => exact ⟨h1, h2, h3, h4⟩
        | some tdoc =>
          by_cases hname : tdoc.name = ""
          · simp only [addTraveler, if_pos hname]
            exact ⟨h1, h2, h3, h4⟩
          · simp only [addTraveler, if_neg hname]
            exact ⟨pushEvict_length_le 15 _ _ h1, pushEvict_length_le 15 _ _ h2, h3, h4⟩
      | event text ty ts =>
        exact ⟨h1, h2, pushEvict_length_le 20 _ _ h3, h4⟩
      | rule desc ts =>
        exact ⟨h1, h2, h3, pushEvict_length_le 10 _ _ h4⟩
  · intro hlt
    unfold pushEvict
    dsimp only
    rw [if_neg (by simp; omega)]
  · intro hcap hlen
    unfold pushEvict
    dsimp only
    rw [if_pos (by simp; omega)]
    match l, hlen with
    | a :: t, _ => simp
    | [], hlen => simp at hlen; omega

/-- Witness for C9 at concrete inputs: one append from the default memory
keeps the bounds, and a full 2-entry history at capacity 2 evicts its
oldest entry. -/
theorem histories_bounded_witness :
    capsOK (addNarrativeEvent getDefaultMemory "You begin your shift." "start" "t0") ∧
    pushEvict 2 [10, 20] 30 = [20, 30] := by
  have h := histories_bounded 2 [10, 20] 30 getDefaultMemory
    (addNarrativeEvent getDefaultMemory "You begin your shift." "start" "t0")
    (Relation.ReflTransGen.single
      (MemStep.event getDefaultMemory "You begin your shift." "start" "t0"))
  exact ⟨h.1 (by decide), h.2.2.2 (by decide) (by decide)⟩

/-- C10: after a successful GameplayManager.loadGame, the running score is
exactly 0 regardless of the prior score and of the loaded decision
history: the reduce over the loaded decisions always returns 0, and the
persisted memory carries no score field to restore. -/
theorem loadGame_resets_score (priorScore : ℚ) (ds : List DecisionRecord) :
    gameplayLoadedScore priorScore ds = 0 := by
  unfold gameplayLoadedScore
  induction ds with
  | nil => rfl
  | cons d t ih => simpa using ih

end Veritaminal
